import Mathlib

/-!
Postmark API client: shallow embedding of `postmark.go`

The Go package consists of a credential-bearing `Client`, its constructor
`NewClient`, the request helper `doRequest`, and the error value `APIError`.

`doRequest` is a straight-line sequence of calls into the Go standard library
(`http.NewRequest`, `json.Marshal`, `http.Client.Do`, `ioutil.ReadAll`,
`json.Unmarshal`).  Those callees are not part of the package; they are taken as
the fields of an environment `Env`, and `doRequest` is embedded as a function of
that environment.  Besides the returned error and the final destination, the
embedding records the ordered list of library calls that the run performed, so
that statements such as "the serializer is not invoked" or "one network call"
can be expressed.
-/

namespace Postmark

/-! ## Data model -/

/-- Go `[]byte`, kept as text. -/
abbrev Bytes := String

/-- Package variable `postmarkURL` (postmark.go line 13). -/
def postmarkURL : String := "https://api.postmarkapp.com"

/-- Go `http.Client`.  Its four fields are kept as abstract handles; the zero
value `http.Client{}` has no transport, redirect policy or cookie jar and a zero
timeout. -/
structure HTTPClient where
  Transport : Option Nat := none
  CheckRedirect : Option Nat := none
  Jar : Option Nat := none
  Timeout : Int := 0
deriving DecidableEq, Repr

/-- Go `Client` (postmark.go lines 17-26).  The `HTTPClient` pointer is taken to
be non-nil, as `NewClient` makes it. -/
structure Client where
  HTTPClient : HTTPClient
  ServerToken : String
  AccountToken : String
  BaseURL : String
deriving DecidableEq, Repr

/-- Go `NewClient` (postmark.go lines 31-38). -/
def NewClient (serverToken : String) (accountToken : String) : Client :=
  { HTTPClient := {}
    ServerToken := serverToken
    AccountToken := accountToken
    BaseURL := postmarkURL }

/-- Go `APIError` (postmark.go lines 77-82); `ErrorCode` is an `int64`. -/
structure APIError where
  ErrorCode : Int
  Message : String
deriving DecidableEq, Repr

/-- Go `APIError.Error` (postmark.go lines 85-87). -/
def APIError.Error (res : APIError) : String :=
  res.Message

/-! ## HTTP requests and responses -/

/-- Go `http.Header`: each key maps to the list of its values.  The association
list keeps the keys in the order of their first insertion. -/
abbrev Header := List (String × List String)

/-- Go `Header.Add`: append `value` to the values of `key`.  (Go first puts the key
in canonical MIME form; the four keys `doRequest` uses are literals that are
already in that form.) -/
def Header.Add : Header → String → String → Header
  | [], key, value => [(key, [value])]
  | (k, vs) :: rest, key, value =>
    if k = key then (k, vs ++ [value]) :: rest
    else (k, vs) :: Header.Add rest key value

/-- Go `Header.Values`: all values stored under `key`. -/
def Header.Values : Header → String → List String
  | [], _ => []
  | (k, vs) :: rest, key => if k = key then vs else Header.Values rest key

/-- Go `http.Request`, restricted to what `doRequest` sets.  `Method` is the
method the request carries, `URL` is the parsed URL it stores, in printed form;
`Body` is `none` for a nil body and otherwise holds the bytes the body reader
yields. -/
structure Request where
  Method : String
  URL : String
  Header : Header
  Body : Option Bytes
deriving DecidableEq, Repr

/-- Go `io.ReadCloser` of a response body, described by what draining it
yields: the bytes read and the error (if any) that ended the read. -/
structure ReadCloser (E : Type) where
  data : Bytes
  err : Option E
deriving DecidableEq, Repr

/-- Go `ioutil.ReadAll`. -/
def ReadAll {E : Type} (r : ReadCloser E) : Bytes × Option E :=
  (r.data, r.err)

/-- Go `http.Response`, restricted to status code and body. -/
structure Response (E : Type) where
  StatusCode : Int
  Body : ReadCloser E
deriving DecidableEq, Repr

/-! ## The environment: standard library and network -/

/-- The library calls a run of `doRequest` performs, with their arguments. -/
inductive Event (P : Type) where
  /-- Call of `http.NewRequest(method, url, nil)`. -/
  | newRequest (method : String) (url : String)
  /-- Call of `json.Marshal(payload)`. -/
  | marshal (payload : P)
  /-- Call of `client.HTTPClient.Do(req)`. -/
  | roundTrip (hc : HTTPClient) (req : Request)
  /-- Call of `ioutil.ReadAll(res.Body)`. -/
  | readAll
  /-- Call of `json.Unmarshal(body, dst)`. -/
  | unmarshal (body : Bytes)
  /-- Deferred call of `res.Body.Close()`. -/
  | close
deriving DecidableEq, Repr

/-- What `doRequest` calls but does not define.  `P` is the type of payload
values, `D` of destination values, `E` of Go errors and `N` of states of the
network behind the HTTP transport.

* `NewRequestErr method url` is the error with which `http.NewRequest` rejects a
  method or URL, `none` when it accepts them;
* `ParseURL url` is the URL that `http.NewRequest` stores for a raw URL it
  accepts, in printed form (`url.Parse` followed by `URL.String`, which for
  instance percent-encodes a space in the path);
* `Marshal` is `json.Marshal`;
* `Do` is `http.Client.Do`: it takes the network from one state to the next and
  yields a response or an error;
* `Unmarshal body dst` is `json.Unmarshal`: the destination after decoding
  (possibly partly written on failure) and the decoder's error. -/
structure Env (P D E N : Type) where
  NewRequestErr : String → String → Option E
  ParseURL : String → String
  Marshal : P → Except E Bytes
  Do : HTTPClient → N → Request → N × Except E (Response E)
  Unmarshal : Bytes → D → D × Option E

/-- Go `http.NewRequest(method, url, nil)`: the empty method stands for `GET`;
after validation the request has that method, the parsed URL, an empty header
and no body. -/
def NewRequest {P D E N : Type} (env : Env P D E N) (method : String) (url : String) :
    Except E Request :=
  match env.NewRequestErr method url with
  | some err => .error err
  | none =>
    .ok { Method := if method = "" then "GET" else method
          URL := env.ParseURL url
          Header := []
          Body := none }

/-- Result of one run of `doRequest`: the returned error (`none` is Go `nil`),
the destination and the network afterwards, and the calls performed in order. -/
structure Outcome (P D E N : Type) where
  err : Option E
  dst : D
  net : N
  trace : List (Event P)

/-! ## The request helper -/

/-- Lines 56-59 of postmark.go: the four `req.Header.Add` calls. -/
def addHeaders (client : Client) (req : Request) : Request :=
  let h1 := Header.Add req.Header "Accept" "application/json"
  let h2 := Header.Add h1 "Content-Type" "application/json"
  let h3 := Header.Add h2 "X-Postmark-Server-Token" client.ServerToken
  let h4 := Header.Add h3 "X-Postmark-Account-Token" client.AccountToken
  { req with Header := h4 }

/-- Lines 56-73 of postmark.go: headers, exchange, body read and decode, for a
request `req` whose body is already settled.  `tr` is the calls made so far. -/
def exchange {P D E N : Type} (env : Env P D E N) (client : Client) (net : N)
    (req : Request) (dst : D) (tr : List (Event P)) : Outcome P D E N :=
  let req := addHeaders client req
  let tr := tr ++ [.roundTrip client.HTTPClient req]
  match env.Do client.HTTPClient net req with
  | (net, .error err) => { err := some err, dst := dst, net := net, trace := tr }
  | (net, .ok res) =>
    match ReadAll res.Body with
    | (_, some err) =>
      { err := some err, dst := dst, net := net, trace := tr ++ [.readAll, .close] }
    | (body, none) =>
      let (dst, err) := env.Unmarshal body dst
      { err := err, dst := dst, net := net
        trace := tr ++ [.readAll, .unmarshal body, .close] }

/-- Go `Client.doRequest` (postmark.go lines 40-74).  `payload = none` is the nil
interface. -/
def doRequest {P D E N : Type} (env : Env P D E N) (client : Client) (net : N)
    (method : String) (path : String) (payload : Option P) (dst : D) :
    Outcome P D E N :=
  let url := client.BaseURL ++ "/" ++ path
  let tr : List (Event P) := [.newRequest method url]
  match NewRequest env method url with
  | .error err => { err := some err, dst := dst, net := net, trace := tr }
  | .ok req =>
    match payload with
    | some p =>
      let tr := tr ++ [.marshal p]
      match env.Marshal p with
      | .error err => { err := some err, dst := dst, net := net, trace := tr }
      | .ok payloadData =>
        exchange env client net { req with Body := some payloadData } dst tr
    | none => exchange env client net req dst tr

/-- Number of `client.HTTPClient.Do` calls in a trace. -/
def countDo {P : Type} : List (Event P) → Nat
  | [] => 0
  | .roundTrip _ _ :: rest => countDo rest + 1
  | _ :: rest => countDo rest

/-- The request handed to `client.HTTPClient.Do`, if the run got that far. -/
def sentRequest {P : Type} : List (Event P) → Option Request
  | [] => none
  | .roundTrip _ req :: _ => some req
  | _ :: rest => sentRequest rest

/-- The value of `req` when line 61 of postmark.go hands it to the transport, for
a request that `http.NewRequest` accepted, with `parse` the library's URL parser
(`Env.ParseURL`), and whose body is `body`. -/
def requestAtDo (parse : String → String) (client : Client)
    (method : String) (path : String) (body : Option Bytes) : Request :=
  addHeaders client
    { Method := if method = "" then "GET" else method
      URL := parse (client.BaseURL ++ "/" ++ path)
      Header := []
      Body := body }

/-! ## A mock environment

A small concrete environment in the style of a test double: payloads are raw JSON
messages or a channel, the destination is a statistics record with one counter,
errors are their messages, and the network state is the list of requests the
mock transport has received. -/

/-- Payload values of the mock: a Go `json.RawMessage`, which marshals to its
own bytes, and a Go channel, which `encoding/json` cannot serialize. -/
inductive MockPayload where
  | raw (json : Bytes)
  | chan
deriving DecidableEq, Repr

/-- Destination of the mock: a struct with the single field `Sent`. -/
structure Stats where
  Sent : Nat
deriving DecidableEq, Repr

/-- Mock of the checks of `http.NewRequest`: a method containing a space is
refused. -/
def mockNewRequestErr (method : String) (_url : String) : Option String :=
  if method.data.contains (Char.ofNat 32) then some "net/http: invalid method" else none

/-- Mock of `url.Parse` followed by `URL.String`: a space is percent-encoded,
every other character is kept. -/
def mockParseURL (url : String) : String :=
  String.mk (url.data.flatMap fun c => if c = Char.ofNat 32 then "%20".data else [c])

/-- Mock of `json.Marshal`. -/
def mockMarshal : MockPayload → Except String Bytes
  | .raw json => .ok json
  | .chan => .error "json: unsupported type: chan int"

/-- Value of a non-empty list of decimal digits, most significant first. -/
def digitsValue : List Char → Nat → Option Nat
  | [], acc => some acc
  | c :: cs, acc =>
    if c.isDigit then digitsValue cs (10 * acc + (c.toNat - 48)) else none

/-- Remainder of `s` after the leading characters `lead`, if it starts with them. -/
def afterLead : List Char → List Char → Option (List Char)
  | [], s => some s
  | _ :: _, [] => none
  | l :: ls, c :: cs => if l = c then afterLead ls cs else none

/-- Decoder of the mock: the number `n` of a body of the form `{"Sent":n}`. -/
def decodeSent (body : Bytes) : Option Nat :=
  match afterLead "\x7b\"Sent\":".data body.data with
  | none => none
  | some rest =>
    match rest.reverse with
    | [] => none
    | last :: revDigits =>
      if last = Char.ofNat 125 ∧ revDigits ≠ [] then digitsValue revDigits.reverse 0
      else none

/-- Mock of `json.Unmarshal` into a `Stats`: a body that does not decode leaves
the destination as it was and yields a syntax error. -/
def mockUnmarshal (body : Bytes) (dst : Stats) : Stats × Option String :=
  match decodeSent body with
  | some n => ({ dst with Sent := n }, none)
  | none => (dst, some "json: cannot decode body")

/-- Mock environment whose transport logs each request it receives and answers
every one with `reply`. -/
def mockEnv (reply : Except String (Response String)) :
    Env MockPayload Stats String (List Request) :=
  { NewRequestErr := mockNewRequestErr
    ParseURL := mockParseURL
    Marshal := mockMarshal
    Do := fun _ log req => (log ++ [req], reply)
    Unmarshal := mockUnmarshal }

/-- Reply with the given status code and body. -/
def reply (status : Int) (body : Bytes) : Except String (Response String) :=
  .ok { StatusCode := status, Body := { data := body, err := none } }

end Postmark

namespace Postmark

/-! ## Basic facts about the embedding -/

section Lemmas

variable {P D E N : Type}

theorem NewRequest_ok (env : Env P D E N) (method url : String)
    (h : env.NewRequestErr method url = none) :
    NewRequest env method url
      = .ok { Method := if method = "" then "GET" else method
              URL := env.ParseURL url
              Header := []
              Body := none } := by
  simp [NewRequest, h]

theorem NewRequest_error (env : Env P D E N) (method url : String) (e : E)
    (h : env.NewRequestErr method url = some e) :
    NewRequest env method url = .error e := by
  simp [NewRequest, h]

theorem addHeaders_empty (client : Client) (method url : String) (body : Option Bytes) :
    addHeaders client { Method := method, URL := url, Header := [], Body := body }
      = { Method := method, URL := url, Body := body
          Header := [("Accept", ["application/json"]),
                     ("Content-Type", ["application/json"]),
                     ("X-Postmark-Server-Token", [client.ServerToken]),
                     ("X-Postmark-Account-Token", [client.AccountToken])] } := by
  simp [addHeaders, Header.Add]

/-- A run that gets past request construction and serialization is the exchange
of the request built from the method, the URL and the serialized payload. -/
theorem doRequest_eq_exchange (env : Env P D E N) (client : Client) (net : N)
    (method path : String) (payload : Option P) (data : Bytes) (dst : D)
    (hreq : env.NewRequestErr method (client.BaseURL ++ "/" ++ path) = none)
    (hpay : ∀ p, payload = some p → env.Marshal p = .ok data) :
    doRequest env client net method path payload dst
      = exchange env client net
          { Method := if method = "" then "GET" else method
            URL := env.ParseURL (client.BaseURL ++ "/" ++ path)
            Header := []
            Body := payload.map fun _ => data } dst
          ([.newRequest method (client.BaseURL ++ "/" ++ path)]
            ++ payload.toList.map .marshal) := by
  cases payload with
  | none => simp [doRequest, NewRequest_ok env _ _ hreq]
  | some p => simp [doRequest, NewRequest_ok env _ _ hreq, hpay p rfl]

theorem exchange_transport_error (env : Env P D E N) (client : Client) (net net' : N)
    (req : Request) (dst : D) (tr : List (Event P)) (e : E)
    (hdo : env.Do client.HTTPClient net (addHeaders client req) = (net', .error e)) :
    exchange env client net req dst tr
      = { err := some e, dst := dst, net := net'
          trace := tr ++ [.roundTrip client.HTTPClient (addHeaders client req)] } := by
  simp [exchange, hdo]

theorem exchange_read_error (env : Env P D E N) (client : Client) (net net' : N)
    (req : Request) (dst : D) (tr : List (Event P)) (res : Response E) (e : E)
    (hdo : env.Do client.HTTPClient net (addHeaders client req) = (net', .ok res))
    (hread : (ReadAll res.Body).2 = some e) :
    exchange env client net req dst tr
      = { err := some e, dst := dst, net := net'
          trace := tr ++ [.roundTrip client.HTTPClient (addHeaders client req)]
            ++ [.readAll, .close] } := by
  simp only [ReadAll] at hread
  simp [exchange, hdo, ReadAll, hread]

theorem exchange_decode (env : Env P D E N) (client : Client) (net net' : N)
    (req : Request) (dst : D) (tr : List (Event P)) (res : Response E)
    (hdo : env.Do client.HTTPClient net (addHeaders client req) = (net', .ok res))
    (hread : (ReadAll res.Body).2 = none) :
    exchange env client net req dst tr
      = { err := (env.Unmarshal (ReadAll res.Body).1 dst).2
          dst := (env.Unmarshal (ReadAll res.Body).1 dst).1
          net := net'
          trace := tr ++ [.roundTrip client.HTTPClient (addHeaders client req)]
            ++ [.readAll, .unmarshal (ReadAll res.Body).1, .close] } := by
  simp only [ReadAll] at hread
  simp [exchange, hdo, ReadAll, hread]

/-- Every run of `exchange` extends the calls made so far by the one transport
call, followed only by calls that read, decode and close the response. -/
theorem exchange_trace (env : Env P D E N) (client : Client) (net : N)
    (req : Request) (dst : D) (tr : List (Event P)) :
    ∃ tail : List (Event P),
      (exchange env client net req dst tr).trace
        = tr ++ .roundTrip client.HTTPClient (addHeaders client req) :: tail
      ∧ ∀ ev ∈ tail, ev = .readAll ∨ ev = .close ∨ ∃ body, ev = .unmarshal body := by
  rcases hdo : env.Do client.HTTPClient net (addHeaders client req) with ⟨net', r⟩
  cases r with
  | error e =>
    exact ⟨[], by simp [exchange_transport_error env client net net' req dst tr e hdo], by simp⟩
  | ok res =>
    cases hread : (ReadAll res.Body).2 with
    | some e =>
      exact ⟨[.readAll, .close],
        by simp [exchange_read_error env client net net' req dst tr res e hdo hread],
        by simp⟩
    | none =>
      exact ⟨[.readAll, .unmarshal (ReadAll res.Body).1, .close],
        by simp [exchange_decode env client net net' req dst tr res hdo hread],
        by simp⟩

theorem exchange_net (env : Env P D E N) (client : Client) (net : N)
    (req : Request) (dst : D) (tr : List (Event P)) :
    (exchange env client net req dst tr).net
      = (env.Do client.HTTPClient net (addHeaders client req)).1 := by
  rcases hdo : env.Do client.HTTPClient net (addHeaders client req) with ⟨net', r⟩
  cases r with
  | error e => simp [exchange_transport_error env client net net' req dst tr e hdo]
  | ok res =>
    cases hread : (ReadAll res.Body).2 with
    | some e => simp [exchange_read_error env client net net' req dst tr res e hdo hread]
    | none => simp [exchange_decode env client net net' req dst tr res hdo hread]

theorem countDo_append (xs ys : List (Event P)) :
    countDo (xs ++ ys) = countDo xs + countDo ys := by
  induction xs with
  | nil => simp [countDo]
  | cons x xs ih =>
    cases x <;> simp [countDo, ih]
    omega

theorem countDo_map_marshal (ps : List P) :
    countDo (ps.map Event.marshal) = 0 := by
  induction ps with
  | nil => rfl
  | cons p ps ih => simpa [countDo] using ih

theorem countDo_tail (tail : List (Event P))
    (h : ∀ ev ∈ tail, ev = .readAll ∨ ev = .close ∨ ∃ body, ev = .unmarshal body) :
    countDo tail = 0 := by
  induction tail with
  | nil => rfl
  | cons x xs ih =>
    have hx := h x (by simp)
    have hxs := ih (fun ev hev => h ev (by simp [hev]))
    rcases hx with rfl | rfl | ⟨b, rfl⟩ <;> simpa [countDo] using hxs

theorem doRequest_newRequest_error (env : Env P D E N) (client : Client) (net : N)
    (method path : String) (payload : Option P) (dst : D) (e : E)
    (hreq : env.NewRequestErr method (client.BaseURL ++ "/" ++ path) = some e) :
    doRequest env client net method path payload dst
      = { err := some e, dst := dst, net := net
          trace := [.newRequest method (client.BaseURL ++ "/" ++ path)] } := by
  simp [doRequest, NewRequest_error env _ _ e hreq]

theorem doRequest_marshal_error (env : Env P D E N) (client : Client) (net : N)
    (method path : String) (p : P) (dst : D) (e : E)
    (hreq : env.NewRequestErr method (client.BaseURL ++ "/" ++ path) = none)
    (hm : env.Marshal p = .error e) :
    doRequest env client net method path (some p) dst
      = { err := some e, dst := dst, net := net
          trace := [.newRequest method (client.BaseURL ++ "/" ++ path), .marshal p] } := by
  simp [doRequest, NewRequest_ok env _ _ hreq, hm]

/-- The three ways a run can go: request construction fails, serialization
fails, or the request is exchanged. -/
theorem doRequest_cases (env : Env P D E N) (client : Client)
    (method path : String) (payload : Option P) :
    (∃ e, env.NewRequestErr method (client.BaseURL ++ "/" ++ path) = some e)
    ∨ (env.NewRequestErr method (client.BaseURL ++ "/" ++ path) = none
        ∧ ∃ p e, payload = some p ∧ env.Marshal p = .error e)
    ∨ (env.NewRequestErr method (client.BaseURL ++ "/" ++ path) = none
        ∧ ∃ data, ∀ p, payload = some p → env.Marshal p = .ok data) := by
  cases hreq : env.NewRequestErr method (client.BaseURL ++ "/" ++ path) with
  | some e => exact Or.inl ⟨e, rfl⟩
  | none =>
    cases payload with
    | none => exact Or.inr (Or.inr ⟨rfl, "", by intro p hp; cases hp⟩)
    | some p =>
      cases hm : env.Marshal p with
      | error e => exact Or.inr (Or.inl ⟨rfl, p, e, rfl, hm⟩)
      | ok data =>
        exact Or.inr (Or.inr ⟨rfl, data, by intro q hq; cases hq; exact hm⟩)

/-- A run that gets past request construction and serialization makes the
calls up to the one transport call, on the request of line 61, and afterwards
only reads, decodes and closes the response. -/
theorem doRequest_trace (env : Env P D E N) (client : Client) (net : N)
    (method path : String) (payload : Option P) (data : Bytes) (dst : D)
    (hreq : env.NewRequestErr method (client.BaseURL ++ "/" ++ path) = none)
    (hpay : ∀ p, payload = some p → env.Marshal p = .ok data) :
    ∃ tail : List (Event P),
      (doRequest env client net method path payload dst).trace
        = [.newRequest method (client.BaseURL ++ "/" ++ path)]
          ++ payload.toList.map .marshal
          ++ .roundTrip client.HTTPClient
              (requestAtDo env.ParseURL client method path (payload.map fun _ => data)) :: tail
      ∧ ∀ ev ∈ tail, ev = .readAll ∨ ev = .close ∨ ∃ body, ev = .unmarshal body := by
  rw [doRequest_eq_exchange env client net method path payload data dst hreq hpay]
  exact exchange_trace env client net _ dst _

/-- A transport call in the trace of a run is the call on the client's own HTTP
client with the request of line 61. -/
theorem doRequest_roundTrip_mem (env : Env P D E N) (client : Client) (net : N)
    (method path : String) (payload : Option P) (dst : D)
    (hc : HTTPClient) (req : Request)
    (h : Event.roundTrip hc req ∈ (doRequest env client net method path payload dst).trace) :
    hc = client.HTTPClient ∧ ∃ body, req = requestAtDo env.ParseURL client method path body := by
  rcases doRequest_cases env client method path payload with
    ⟨e, hreq⟩ | ⟨hreq, p, e, rfl, hm⟩ | ⟨hreq, data, hpay⟩
  · rw [doRequest_newRequest_error env client net method path payload dst e hreq] at h
    simp at h
  · rw [doRequest_marshal_error env client net method path p dst e hreq hm] at h
    simp at h
  · obtain ⟨tail, htr, htail⟩ :=
      doRequest_trace env client net method path payload data dst hreq hpay
    rw [htr] at h
    simp only [List.singleton_append, List.mem_cons, List.mem_append, List.mem_map,
      Option.mem_toList] at h
    rcases h with (h | h) | h | h
    · cases h
    · obtain ⟨_, _, h⟩ := h
      cases h
    · cases h
      exact ⟨rfl, _, rfl⟩
    · rcases htail _ h with h | h | ⟨b, h⟩ <;> cases h

/-- The outcome of an exchange depends on the transport's answer only through
the next network state, the error, and the body of the response. -/
theorem exchange_congr (env1 env2 : Env P D E N) (client : Client) (net : N)
    (req : Request) (dst : D) (tr : List (Event P))
    (hun : env1.Unmarshal = env2.Unmarshal)
    (hnet : (env1.Do client.HTTPClient net (addHeaders client req)).1
      = (env2.Do client.HTTPClient net (addHeaders client req)).1)
    (hres : (env1.Do client.HTTPClient net (addHeaders client req)).2.map Response.Body
      = (env2.Do client.HTTPClient net (addHeaders client req)).2.map Response.Body) :
    exchange env1 client net req dst tr = exchange env2 client net req dst tr := by
  rcases h1 : env1.Do client.HTTPClient net (addHeaders client req) with ⟨n1, r1⟩
  rcases h2 : env2.Do client.HTTPClient net (addHeaders client req) with ⟨n2, r2⟩
  rw [h1, h2] at hnet hres
  simp only at hnet
  subst hnet
  cases r1 with
  | error e1 =>
    cases r2 with
    | error e2 =>
      simp only [Except.map, Except.error.injEq] at hres
      subst hres
      rw [exchange_transport_error env1 client net n1 req dst tr e1 h1,
        exchange_transport_error env2 client net n1 req dst tr e1 h2]
    | ok res2 => simp [Except.map] at hres
  | ok res1 =>
    cases r2 with
    | error e2 => simp [Except.map] at hres
    | ok res2 =>
      simp only [Except.map, Except.ok.injEq] at hres
      cases hread : (ReadAll res1.Body).2 with
      | some e =>
        rw [exchange_read_error env1 client net n1 req dst tr res1 e h1 hread,
          exchange_read_error env2 client net n1 req dst tr res2 e h2 (hres ▸ hread)]
      | none =>
        rw [exchange_decode env1 client net n1 req dst tr res1 h1 hread,
          exchange_decode env2 client net n1 req dst tr res2 h2 (hres ▸ hread),
          hun, hres]

theorem doRequest_congr (env1 env2 : Env P D E N) (client : Client) (net : N)
    (method path : String) (payload : Option P) (dst : D)
    (hnew : env1.NewRequestErr = env2.NewRequestErr)
    (hparse : env1.ParseURL = env2.ParseURL)
    (hmar : env1.Marshal = env2.Marshal)
    (hun : env1.Unmarshal = env2.Unmarshal)
    (hdo : ∀ hc n req, (env1.Do hc n req).1 = (env2.Do hc n req).1
      ∧ (env1.Do hc n req).2.map Response.Body = (env2.Do hc n req).2.map Response.Body) :
    doRequest env1 client net method path payload dst
      = doRequest env2 client net method path payload dst := by
  rcases doRequest_cases env1 client method path payload with
    ⟨e, hreq⟩ | ⟨hreq, p, e, rfl, hm⟩ | ⟨hreq, data, hpay⟩
  · rw [doRequest_newRequest_error env1 client net method path payload dst e hreq,
      doRequest_newRequest_error env2 client net method path payload dst e (hnew ▸ hreq)]
  · rw [doRequest_marshal_error env1 client net method path p dst e hreq hm,
      doRequest_marshal_error env2 client net method path p dst e (hnew ▸ hreq)
        (hmar ▸ hm)]
  · rw [doRequest_eq_exchange env1 client net method path payload data dst hreq hpay,
      doRequest_eq_exchange env2 client net method path payload data dst (hnew ▸ hreq)
        (fun p hp => hmar ▸ hpay p hp), hparse]
    exact exchange_congr env1 env2 client net _ dst _ hun (hdo _ _ _).1 (hdo _ _ _).2

/-- An exchange performs exactly one transport call beyond the calls made before
it. -/
theorem countDo_exchange (env : Env P D E N) (client : Client) (net : N)
    (req : Request) (dst : D) (tr : List (Event P)) :
    countDo (exchange env client net req dst tr).trace = countDo tr + 1 := by
  obtain ⟨tail, htr, htail⟩ := exchange_trace env client net req dst tr
  rw [htr, countDo_append]
  simp [countDo, countDo_tail tail htail]

end Lemmas

/-! ## The constructor and the error value -/

/-- C1: for every pair of strings, `NewClient` returns (it is a total function)
the client whose `ServerToken` and `AccountToken` are the two arguments and whose
`BaseURL` is exactly `https://api.postmarkapp.com`, with no trailing slash. -/
theorem NewClient_spec (serverToken accountToken : String) :
    (NewClient serverToken accountToken).ServerToken = serverToken
    ∧ (NewClient serverToken accountToken).AccountToken = accountToken
    ∧ (NewClient serverToken accountToken).BaseURL = "https://api.postmarkapp.com"
    ∧ (NewClient serverToken accountToken).BaseURL.data.getLast? ≠ some '/' := by
  refine ⟨rfl, rfl, rfl, ?_⟩
  show postmarkURL.data.getLast? ≠ some '/'
  decide

/-- C10: `Error` returns exactly the `Message` of an `APIError`; two values with
the same message and different error codes give the same string, and an empty
message gives the empty string. -/
theorem APIError_Error_spec :
    (∀ e : APIError, e.Error = e.Message)
    ∧ (∀ (c1 c2 : Int) (m : String),
        APIError.Error { ErrorCode := c1, Message := m }
          = APIError.Error { ErrorCode := c2, Message := m })
    ∧ (∀ c : Int, APIError.Error { ErrorCode := c, Message := "" } = "") :=
  ⟨fun _ => rfl, fun _ _ _ => rfl, fun _ => rfl⟩

/-! ## Successful exchange -/

section Claims

variable {P D E N : Type}

/-- C2: when `http.NewRequest` accepts the method and URL, the payload (if any)
serializes, the transport answers with a response whose body reads without error
and decodes into the destination without error, `doRequest` returns no error and
the destination holds the decoded content of the body. -/
theorem doRequest_success (env : Env P D E N) (client : Client) (net net' : N)
    (method path : String) (payload : Option P) (data : Bytes) (dst dst' : D)
    (res : Response E)
    (hreq : env.NewRequestErr method (client.BaseURL ++ "/" ++ path) = none)
    (hpay : ∀ p, payload = some p → env.Marshal p = .ok data)
    (hdo : env.Do client.HTTPClient net
        (requestAtDo env.ParseURL client method path (payload.map fun _ => data)) = (net', .ok res))
    (hread : (ReadAll res.Body).2 = none)
    (hdec : env.Unmarshal (ReadAll res.Body).1 dst = (dst', none)) :
    (doRequest env client net method path payload dst).err = none
    ∧ (doRequest env client net method path payload dst).dst = dst' := by
  rw [doRequest_eq_exchange env client net method path payload data dst hreq hpay,
    exchange_decode env client net net' _ dst _ res hdo hread, hdec]
  exact ⟨rfl, rfl⟩

/-- Witness of C2: `GET deliverystats` with a nil payload against a mock transport
answering `{"Sent":42}` leaves `Sent = 42` and returns no error. -/
theorem doRequest_success_witness :
    (doRequest (mockEnv (reply 200 "\x7b\"Sent\":42\x7d"))
        (NewClient "srv-token" "acct-token") [] "GET" "deliverystats" none
        { Sent := 0 }).err = none
    ∧ (doRequest (mockEnv (reply 200 "\x7b\"Sent\":42\x7d"))
        (NewClient "srv-token" "acct-token") [] "GET" "deliverystats" none
        { Sent := 0 }).dst = { Sent := 42 } :=
  doRequest_success (mockEnv (reply 200 "\x7b\"Sent\":42\x7d"))
    (NewClient "srv-token" "acct-token") []
    [requestAtDo mockParseURL (NewClient "srv-token" "acct-token") "GET" "deliverystats" none]
    "GET" "deliverystats" none "" { Sent := 0 } { Sent := 42 }
    { StatusCode := 200, Body := { data := "\x7b\"Sent\":42\x7d", err := none } }
    (by decide) (by intro p hp; cases hp) rfl rfl (by decide)

/-! ## The outgoing request -/

/-- C3: in a run whose request is constructed, a nil payload means that
`json.Marshal` is not called and the request handed to the transport has no body;
a payload that serializes to `data` means that the request handed to the
transport has exactly `data` as its body.  Nothing but the payload enters. -/
theorem doRequest_body (env : Env P D E N) (client : Client) (net : N)
    (method path : String) (payload : Option P) (dst : D)
    (hreq : env.NewRequestErr method (client.BaseURL ++ "/" ++ path) = none) :
    (payload = none →
      (∀ p, Event.marshal p ∉ (doRequest env client net method path payload dst).trace)
      ∧ ∃ req, sentRequest (doRequest env client net method path payload dst).trace
            = some req ∧ req.Body = none)
    ∧ (∀ p data, payload = some p → env.Marshal p = .ok data →
        ∃ req, sentRequest (doRequest env client net method path payload dst).trace
            = some req ∧ req.Body = some data) := by
  constructor
  · rintro rfl
    obtain ⟨tail, htr, htail⟩ :=
      doRequest_trace env client net method path none "" dst hreq (by intro p hp; cases hp)
    rw [htr]
    refine ⟨?_, ?_⟩
    · intro p hp
      simp only [Option.toList_none, List.map_nil, List.append_nil, List.singleton_append,
        List.mem_cons, List.mem_append] at hp
      rcases hp with hp | hp | hp
      · cases hp
      · cases hp
      · rcases htail _ hp with h | h | ⟨b, h⟩ <;> cases h
    · exact ⟨requestAtDo env.ParseURL client method path none, by simp [sentRequest],
        by simp [requestAtDo, addHeaders]⟩
  · rintro p data rfl hm
    obtain ⟨tail, htr, -⟩ :=
      doRequest_trace env client net method path (some p) data dst hreq
        (by intro q hq; cases hq; exact hm)
    rw [htr]
    exact ⟨requestAtDo env.ParseURL client method path (some data), by simp [sentRequest],
      by simp [requestAtDo, addHeaders]⟩

/-- Witness of C3: with a nil payload the mock run calls no serializer and sends
no body; with a raw JSON payload it sends exactly the serialized payload. -/
theorem doRequest_body_witness :
    ((∀ p, Event.marshal p ∉ (doRequest (mockEnv (reply 200 "\x7b\"Sent\":42\x7d"))
          (NewClient "srv-token" "acct-token") [] "GET" "deliverystats" none
          { Sent := 0 }).trace)
      ∧ ∃ req, sentRequest (doRequest (mockEnv (reply 200 "\x7b\"Sent\":42\x7d"))
          (NewClient "srv-token" "acct-token") [] "GET" "deliverystats" none
          { Sent := 0 }).trace = some req ∧ req.Body = none)
    ∧ ∃ req, sentRequest (doRequest (mockEnv (reply 200 "\x7b\"Sent\":42\x7d"))
          (NewClient "srv-token" "acct-token") [] "POST" "email"
          (some (.raw "\x7b\"To\":\"a@example.com\"\x7d")) { Sent := 0 }).trace = some req
        ∧ req.Body = some "\x7b\"To\":\"a@example.com\"\x7d" :=
  ⟨(doRequest_body (mockEnv (reply 200 "\x7b\"Sent\":42\x7d"))
      (NewClient "srv-token" "acct-token") [] "GET" "deliverystats" none
      { Sent := 0 } (by decide)).1 rfl,
   (doRequest_body (mockEnv (reply 200 "\x7b\"Sent\":42\x7d"))
      (NewClient "srv-token" "acct-token") [] "POST" "email"
      (some (.raw "\x7b\"To\":\"a@example.com\"\x7d")) { Sent := 0 } (by decide)).2
        (.raw "\x7b\"To\":\"a@example.com\"\x7d") "\x7b\"To\":\"a@example.com\"\x7d"
        rfl rfl⟩

/-- C4: every request that a run of `doRequest` hands to the transport carries
exactly four headers, each with one value: `Accept` and `Content-Type` are
`application/json`, `X-Postmark-Server-Token` is the client's server token and
`X-Postmark-Account-Token` its account token, whatever the tokens (empty ones
included) and whatever the payload. -/
theorem doRequest_headers (env : Env P D E N) (client : Client) (net : N)
    (method path : String) (payload : Option P) (dst : D)
    (hc : HTTPClient) (req : Request)
    (h : Event.roundTrip hc req ∈ (doRequest env client net method path payload dst).trace) :
    req.Header = [("Accept", ["application/json"]),
                  ("Content-Type", ["application/json"]),
                  ("X-Postmark-Server-Token", [client.ServerToken]),
                  ("X-Postmark-Account-Token", [client.AccountToken])]
    ∧ Header.Values req.Header "Accept" = ["application/json"]
    ∧ Header.Values req.Header "Content-Type" = ["application/json"]
    ∧ Header.Values req.Header "X-Postmark-Server-Token" = [client.ServerToken]
    ∧ Header.Values req.Header "X-Postmark-Account-Token" = [client.AccountToken] := by
  obtain ⟨-, body, rfl⟩ :=
    doRequest_roundTrip_mem env client net method path payload dst hc req h
  rw [requestAtDo, addHeaders_empty]
  simp [Header.Values]

/-- Witness of C4: a client with an empty account token still sends both token
headers, with a nil payload and with a payload alike. -/
theorem doRequest_headers_witness :
    (Event.roundTrip {} (requestAtDo mockParseURL (NewClient "srv-token" "") "GET" "deliverystats" none)
      ∈ (doRequest (mockEnv (reply 200 "\x7b\"Sent\":42\x7d"))
          (NewClient "srv-token" "") [] "GET" "deliverystats" none { Sent := 0 }).trace
    ∧ (requestAtDo mockParseURL (NewClient "srv-token" "") "GET" "deliverystats" none).Header
      = [("Accept", ["application/json"]),
         ("Content-Type", ["application/json"]),
         ("X-Postmark-Server-Token", ["srv-token"]),
         ("X-Postmark-Account-Token", [""])])
    ∧ (Event.roundTrip {}
        (requestAtDo mockParseURL (NewClient "srv-token" "") "POST" "email" (some "\x7b\x7d"))
      ∈ (doRequest (mockEnv (reply 200 "\x7b\"Sent\":42\x7d"))
          (NewClient "srv-token" "") [] "POST" "email" (some (.raw "\x7b\x7d"))
          { Sent := 0 }).trace
    ∧ Header.Values
        (requestAtDo mockParseURL (NewClient "srv-token" "") "POST" "email" (some "\x7b\x7d")).Header
        "X-Postmark-Account-Token" = [""]) :=
  ⟨⟨by decide,
    (doRequest_headers (mockEnv (reply 200 "\x7b\"Sent\":42\x7d"))
      (NewClient "srv-token" "") [] "GET" "deliverystats" none { Sent := 0 }
      {} (requestAtDo mockParseURL (NewClient "srv-token" "") "GET" "deliverystats" none) (by decide)).1⟩,
   ⟨by decide,
    (doRequest_headers (mockEnv (reply 200 "\x7b\"Sent\":42\x7d"))
      (NewClient "srv-token" "") [] "POST" "email" (some (.raw "\x7b\x7d")) { Sent := 0 }
      {} (requestAtDo mockParseURL (NewClient "srv-token" "") "POST" "email" (some "\x7b\x7d"))
      (by decide)).2.2.2.2⟩⟩

/-- C5, as stated, fails: for the empty method the request handed to the
transport carries the method `GET`, not the given one; and for a path with a
space it targets the re-encoded URL, not the string
`client.BaseURL ++ "/" ++ path`. -/
theorem doRequest_target_counterexample :
    (∃ hc req,
      Event.roundTrip hc req
        ∈ (doRequest (mockEnv (reply 200 "\x7b\"Sent\":42\x7d"))
            (NewClient "srv-token" "acct-token") [] "" "deliverystats" none
            { Sent := 0 }).trace
      ∧ req.Method = "GET" ∧ req.Method ≠ "")
    ∧ (∃ hc req,
      Event.roundTrip hc req
        ∈ (doRequest (mockEnv (reply 200 "\x7b\"Sent\":42\x7d"))
            (NewClient "srv-token" "acct-token") [] "GET" "a b" none
            { Sent := 0 }).trace
      ∧ req.URL = "https://api.postmarkapp.com/a%20b"
      ∧ req.URL ≠ (NewClient "srv-token" "acct-token").BaseURL ++ "/" ++ "a b") :=
  ⟨⟨{}, requestAtDo mockParseURL (NewClient "srv-token" "acct-token") "" "deliverystats" none,
      by decide, by decide, by decide⟩,
   ⟨{}, requestAtDo mockParseURL (NewClient "srv-token" "acct-token") "GET" "a b" none,
      by decide, by decide, by decide⟩⟩

/-- C5, amended: `doRequest` passes to `http.NewRequest` the given method
unchanged and the URL string `client.BaseURL ++ "/" ++ path`: the current
`BaseURL` field, one `/`, and the path, nothing trimmed.  Every request it hands
to the transport carries the method `http.NewRequest` gives it, which is the
given method when that is not empty and `GET` when it is, and the URL
`http.NewRequest` parses from that string. -/
theorem doRequest_target (env : Env P D E N) (client : Client) (net : N)
    (method path : String) (payload : Option P) (dst : D) :
    (doRequest env client net method path payload dst).trace.head?
      = some (.newRequest method (client.BaseURL ++ "/" ++ path))
    ∧ ∀ hc req,
        Event.roundTrip hc req ∈ (doRequest env client net method path payload dst).trace →
        req.Method = (if method = "" then "GET" else method)
        ∧ (method ≠ "" → req.Method = method)
        ∧ req.URL = env.ParseURL (client.BaseURL ++ "/" ++ path) := by
  constructor
  · rcases doRequest_cases env client method path payload with
      ⟨e, hreq⟩ | ⟨hreq, p, e, rfl, hm⟩ | ⟨hreq, data, hpay⟩
    · rw [doRequest_newRequest_error env client net method path payload dst e hreq]
      rfl
    · rw [doRequest_marshal_error env client net method path p dst e hreq hm]
      rfl
    · obtain ⟨tail, htr, -⟩ :=
        doRequest_trace env client net method path payload data dst hreq hpay
      rw [htr]
      rfl
  · intro hc req h
    obtain ⟨-, body, rfl⟩ :=
      doRequest_roundTrip_mem env client net method path payload dst hc req h
    refine ⟨rfl, fun hne => ?_, rfl⟩
    show (if method = "" then "GET" else method) = method
    rw [if_neg hne]

/-- Witness of amended C5: with `BaseURL` reassigned to a value ending in a slash
and a path starting with one, `http.NewRequest` is asked for the plain
concatenation, and the request goes there with the given method. -/
theorem doRequest_target_witness :
    (doRequest (mockEnv (reply 200 "\x7b\"Sent\":42\x7d"))
        { NewClient "srv-token" "acct-token" with BaseURL := "http://localhost:8080/" }
        [] "GET" "/deliverystats" none { Sent := 0 }).trace.head?
      = some (.newRequest "GET" "http://localhost:8080///deliverystats")
    ∧ Event.roundTrip {}
        (requestAtDo mockParseURL
          { NewClient "srv-token" "acct-token" with BaseURL := "http://localhost:8080/" }
          "GET" "/deliverystats" none)
      ∈ (doRequest (mockEnv (reply 200 "\x7b\"Sent\":42\x7d"))
          { NewClient "srv-token" "acct-token" with BaseURL := "http://localhost:8080/" }
          [] "GET" "/deliverystats" none { Sent := 0 }).trace
    ∧ (requestAtDo mockParseURL
        { NewClient "srv-token" "acct-token" with BaseURL := "http://localhost:8080/" }
        "GET" "/deliverystats" none).Method = "GET"
    ∧ (requestAtDo mockParseURL
        { NewClient "srv-token" "acct-token" with BaseURL := "http://localhost:8080/" }
        "GET" "/deliverystats" none).URL
      = mockParseURL ("http://localhost:8080/" ++ "/" ++ "/deliverystats") :=
  ⟨(doRequest_target (mockEnv (reply 200 "\x7b\"Sent\":42\x7d"))
      { NewClient "srv-token" "acct-token" with BaseURL := "http://localhost:8080/" }
      [] "GET" "/deliverystats" none { Sent := 0 }).1,
   by decide,
   ((doRequest_target (mockEnv (reply 200 "\x7b\"Sent\":42\x7d"))
      { NewClient "srv-token" "acct-token" with BaseURL := "http://localhost:8080/" }
      [] "GET" "/deliverystats" none { Sent := 0 }).2 {}
      (requestAtDo mockParseURL
        { NewClient "srv-token" "acct-token" with BaseURL := "http://localhost:8080/" }
        "GET" "/deliverystats" none) (by decide)).2.1 (by decide),
   ((doRequest_target (mockEnv (reply 200 "\x7b\"Sent\":42\x7d"))
      { NewClient "srv-token" "acct-token" with BaseURL := "http://localhost:8080/" }
      [] "GET" "/deliverystats" none { Sent := 0 }).2 {}
      (requestAtDo mockParseURL
        { NewClient "srv-token" "acct-token" with BaseURL := "http://localhost:8080/" }
        "GET" "/deliverystats" none) (by decide)).2.2⟩

/-! ## The status code -/

/-- C6: two runs with the same client, method, path, payload and initial
destination, against transports whose answers agree in everything but the status
code of the response, return the same error and leave the same destination. -/
theorem doRequest_ignores_status (env1 env2 : Env P D E N) (client : Client) (net : N)
    (method path : String) (payload : Option P) (dst : D)
    (hnew : env1.NewRequestErr = env2.NewRequestErr)
    (hparse : env1.ParseURL = env2.ParseURL)
    (hmar : env1.Marshal = env2.Marshal)
    (hun : env1.Unmarshal = env2.Unmarshal)
    (hdo : ∀ hc n req, (env1.Do hc n req).1 = (env2.Do hc n req).1
      ∧ (env1.Do hc n req).2.map Response.Body = (env2.Do hc n req).2.map Response.Body) :
    (doRequest env1 client net method path payload dst).err
      = (doRequest env2 client net method path payload dst).err
    ∧ (doRequest env1 client net method path payload dst).dst
      = (doRequest env2 client net method path payload dst).dst := by
  rw [doRequest_congr env1 env2 client net method path payload dst hnew hparse hmar hun hdo]
  exact ⟨rfl, rfl⟩

/-- Witness of C6: the same body under status 200 and under status 500 gives the
same error and the same destination. -/
theorem doRequest_ignores_status_witness :
    (doRequest (mockEnv (reply 200 "\x7b\"Sent\":42\x7d"))
        (NewClient "srv-token" "acct-token") [] "GET" "deliverystats" none
        { Sent := 0 }).err
      = (doRequest (mockEnv (reply 500 "\x7b\"Sent\":42\x7d"))
        (NewClient "srv-token" "acct-token") [] "GET" "deliverystats" none
        { Sent := 0 }).err
    ∧ (doRequest (mockEnv (reply 200 "\x7b\"Sent\":42\x7d"))
        (NewClient "srv-token" "acct-token") [] "GET" "deliverystats" none
        { Sent := 0 }).dst
      = (doRequest (mockEnv (reply 500 "\x7b\"Sent\":42\x7d"))
        (NewClient "srv-token" "acct-token") [] "GET" "deliverystats" none
        { Sent := 0 }).dst :=
  doRequest_ignores_status (mockEnv (reply 200 "\x7b\"Sent\":42\x7d"))
    (mockEnv (reply 500 "\x7b\"Sent\":42\x7d"))
    (NewClient "srv-token" "acct-token") [] "GET" "deliverystats" none { Sent := 0 }
    rfl rfl rfl rfl (fun _ _ _ => ⟨rfl, rfl⟩)

/-! ## Errors -/

/-- C7: `doRequest` returns the error of the first step that fails and makes no
later call.  A rejected request construction ends the run after
`http.NewRequest`; a failed serialization ends it after `json.Marshal`, with no
transport call; a transport error ends it after `Do`, with no body read and no
decode; a body read error ends it with no decode; in all four cases the
destination is untouched.  A decode error is returned as it is. -/
theorem doRequest_first_error (env : Env P D E N) (client : Client) (net : N)
    (method path : String) (payload : Option P) (dst : D) :
    (∀ e, env.NewRequestErr method (client.BaseURL ++ "/" ++ path) = some e →
      doRequest env client net method path payload dst
        = { err := some e, dst := dst, net := net
            trace := [.newRequest method (client.BaseURL ++ "/" ++ path)] })
    ∧ (env.NewRequestErr method (client.BaseURL ++ "/" ++ path) = none →
      (∀ p e, payload = some p → env.Marshal p = .error e →
        doRequest env client net method path payload dst
          = { err := some e, dst := dst, net := net
              trace := [.newRequest method (client.BaseURL ++ "/" ++ path), .marshal p] })
      ∧ (∀ data, (∀ p, payload = some p → env.Marshal p = .ok data) →
        ∀ net',
        (∀ e, env.Do client.HTTPClient net
              (requestAtDo env.ParseURL client method path (payload.map fun _ => data))
            = (net', .error e) →
          doRequest env client net method path payload dst
            = { err := some e, dst := dst, net := net'
                trace := [.newRequest method (client.BaseURL ++ "/" ++ path)]
                  ++ payload.toList.map .marshal
                  ++ [.roundTrip client.HTTPClient
                        (requestAtDo env.ParseURL client method path (payload.map fun _ => data))] })
        ∧ (∀ res, env.Do client.HTTPClient net
              (requestAtDo env.ParseURL client method path (payload.map fun _ => data))
            = (net', .ok res) →
          (∀ e, (ReadAll res.Body).2 = some e →
            doRequest env client net method path payload dst
              = { err := some e, dst := dst, net := net'
                  trace := [.newRequest method (client.BaseURL ++ "/" ++ path)]
                    ++ payload.toList.map .marshal
                    ++ [.roundTrip client.HTTPClient
                          (requestAtDo env.ParseURL client method path (payload.map fun _ => data))]
                    ++ [.readAll, .close] })
          ∧ ((ReadAll res.Body).2 = none →
            ∀ e, (env.Unmarshal (ReadAll res.Body).1 dst).2 = some e →
              (doRequest env client net method path payload dst).err = some e)))) := by
  refine ⟨fun e hreq => doRequest_newRequest_error env client net method path payload dst e hreq,
    fun hreq => ⟨?_, ?_⟩⟩
  · rintro p e rfl hm
    exact doRequest_marshal_error env client net method path p dst e hreq hm
  · intro data hpay net'
    rw [doRequest_eq_exchange env client net method path payload data dst hreq hpay]
    refine ⟨fun e hdo => ?_, fun res hdo => ⟨fun e hread => ?_, fun hread e hdec => ?_⟩⟩
    · exact exchange_transport_error env client net net' _ dst _ e hdo
    · exact exchange_read_error env client net net' _ dst _ res e hdo hread
    · rw [exchange_decode env client net net' _ dst _ res hdo hread]
      exact hdec

/-- Witness of C7: one mock run for each of the five steps failing first. -/
theorem doRequest_first_error_witness :
    doRequest (mockEnv (reply 200 "\x7b\"Sent\":42\x7d"))
        (NewClient "srv-token" "acct-token") [] "BAD METHOD" "deliverystats"
        (some .chan) { Sent := 7 }
      = { err := some "net/http: invalid method", dst := { Sent := 7 }, net := []
          trace := [.newRequest "BAD METHOD" "https://api.postmarkapp.com/deliverystats"] }
    ∧ doRequest (mockEnv (reply 200 "\x7b\"Sent\":42\x7d"))
        (NewClient "srv-token" "acct-token") [] "POST" "email" (some .chan) { Sent := 7 }
      = { err := some "json: unsupported type: chan int", dst := { Sent := 7 }, net := []
          trace := [.newRequest "POST" "https://api.postmarkapp.com/email", .marshal .chan] }
    ∧ doRequest (mockEnv (.error "dial tcp: connection refused"))
        (NewClient "srv-token" "acct-token") [] "GET" "deliverystats" none { Sent := 7 }
      = { err := some "dial tcp: connection refused", dst := { Sent := 7 }
          net := [requestAtDo mockParseURL (NewClient "srv-token" "acct-token") "GET" "deliverystats" none]
          trace := [.newRequest "GET" "https://api.postmarkapp.com/deliverystats",
            .roundTrip {}
              (requestAtDo mockParseURL (NewClient "srv-token" "acct-token") "GET" "deliverystats" none)] }
    ∧ doRequest
        (mockEnv (.ok { StatusCode := 200, Body := { data := "", err := some "unexpected EOF" } }))
        (NewClient "srv-token" "acct-token") [] "GET" "deliverystats" none { Sent := 7 }
      = { err := some "unexpected EOF", dst := { Sent := 7 }
          net := [requestAtDo mockParseURL (NewClient "srv-token" "acct-token") "GET" "deliverystats" none]
          trace := [.newRequest "GET" "https://api.postmarkapp.com/deliverystats",
            .roundTrip {}
              (requestAtDo mockParseURL (NewClient "srv-token" "acct-token") "GET" "deliverystats" none),
            .readAll, .close] }
    ∧ (doRequest (mockEnv (reply 200 "not json"))
        (NewClient "srv-token" "acct-token") [] "GET" "deliverystats" none { Sent := 7 }).err
      = some "json: cannot decode body" :=
  ⟨(doRequest_first_error (mockEnv (reply 200 "\x7b\"Sent\":42\x7d"))
      (NewClient "srv-token" "acct-token") [] "BAD METHOD" "deliverystats"
      (some .chan) { Sent := 7 }).1 "net/http: invalid method" (by decide),
   ((doRequest_first_error (mockEnv (reply 200 "\x7b\"Sent\":42\x7d"))
      (NewClient "srv-token" "acct-token") [] "POST" "email" (some .chan)
      { Sent := 7 }).2 (by decide)).1 .chan "json: unsupported type: chan int" rfl rfl,
   ((((doRequest_first_error (mockEnv (.error "dial tcp: connection refused"))
      (NewClient "srv-token" "acct-token") [] "GET" "deliverystats" none
      { Sent := 7 }).2 (by decide)).2 "" (by intro p hp; cases hp)
      [requestAtDo mockParseURL (NewClient "srv-token" "acct-token") "GET" "deliverystats" none]).1
      "dial tcp: connection refused" rfl),
   (((((doRequest_first_error
      (mockEnv (.ok { StatusCode := 200, Body := { data := "", err := some "unexpected EOF" } }))
      (NewClient "srv-token" "acct-token") [] "GET" "deliverystats" none
      { Sent := 7 }).2 (by decide)).2 "" (by intro p hp; cases hp)
      [requestAtDo mockParseURL (NewClient "srv-token" "acct-token") "GET" "deliverystats" none]).2
      { StatusCode := 200, Body := { data := "", err := some "unexpected EOF" } } rfl).1
      "unexpected EOF" rfl),
   (((((doRequest_first_error (mockEnv (reply 200 "not json"))
      (NewClient "srv-token" "acct-token") [] "GET" "deliverystats" none
      { Sent := 7 }).2 (by decide)).2 "" (by intro p hp; cases hp)
      [requestAtDo mockParseURL (NewClient "srv-token" "acct-token") "GET" "deliverystats" none]).2
      { StatusCode := 200, Body := { data := "not json", err := none } } rfl).2 rfl
      "json: cannot decode body" (by decide))⟩

/-- C8: when the exchange and the body read succeed and `json.Unmarshal` rejects
the body with error `e`, `doRequest` returns `e`, which is not nil. -/
theorem doRequest_decode_error (env : Env P D E N) (client : Client) (net net' : N)
    (method path : String) (payload : Option P) (data : Bytes) (dst : D)
    (res : Response E) (e : E)
    (hreq : env.NewRequestErr method (client.BaseURL ++ "/" ++ path) = none)
    (hpay : ∀ p, payload = some p → env.Marshal p = .ok data)
    (hdo : env.Do client.HTTPClient net
        (requestAtDo env.ParseURL client method path (payload.map fun _ => data)) = (net', .ok res))
    (hread : (ReadAll res.Body).2 = none)
    (hdec : (env.Unmarshal (ReadAll res.Body).1 dst).2 = some e) :
    (doRequest env client net method path payload dst).err = some e
    ∧ (doRequest env client net method path payload dst).err ≠ none := by
  rw [doRequest_eq_exchange env client net method path payload data dst hreq hpay,
    exchange_decode env client net net' _ dst _ res hdo hread]
  simp [hdec]

/-- Witness of C8: a mock transport answering `not json` makes the run return
the decoder's error. -/
theorem doRequest_decode_error_witness :
    (doRequest (mockEnv (reply 200 "not json"))
        (NewClient "srv-token" "acct-token") [] "GET" "deliverystats" none
        { Sent := 0 }).err = some "json: cannot decode body"
    ∧ (doRequest (mockEnv (reply 200 "not json"))
        (NewClient "srv-token" "acct-token") [] "GET" "deliverystats" none
        { Sent := 0 }).err ≠ none :=
  doRequest_decode_error (mockEnv (reply 200 "not json"))
    (NewClient "srv-token" "acct-token") []
    [requestAtDo mockParseURL (NewClient "srv-token" "acct-token") "GET" "deliverystats" none]
    "GET" "deliverystats" none "" { Sent := 0 }
    { StatusCode := 200, Body := { data := "not json", err := none } }
    "json: cannot decode body"
    (by decide) (by intro p hp; cases hp) rfl rfl (by decide)

/-! ## Network calls -/

/-- C9, as stated, fails: a run whose payload is a channel stops at the
serialization error and calls the transport zero times, not once. -/
theorem doRequest_no_call_counterexample :
    countDo (doRequest (mockEnv (reply 200 "\x7b\"Sent\":42\x7d"))
        (NewClient "srv-token" "acct-token") [] "POST" "email" (some .chan)
        { Sent := 0 }).trace ≠ 1
    ∧ countDo (doRequest (mockEnv (reply 200 "\x7b\"Sent\":42\x7d"))
        (NewClient "srv-token" "acct-token") [] "POST" "email" (some .chan)
        { Sent := 0 }).trace = 0
    ∧ (doRequest (mockEnv (reply 200 "\x7b\"Sent\":42\x7d"))
        (NewClient "srv-token" "acct-token") [] "POST" "email" (some .chan)
        { Sent := 0 }).net = [] := by
  decide

/-- C9, amended: a run of `doRequest` calls the transport at most once; exactly
once when request construction and the serialization of the payload (if any)
succeed, and not at all when either fails, in which case the network is left as
it was.  Two successive runs with the same inputs that get past those two steps
call the transport once each, with the same request, the second on the network
state the first left behind: nothing is cached. -/
theorem doRequest_transport_calls (env : Env P D E N) (client : Client) (net : N)
    (method path : String) (payload : Option P) (dst dst2 : D) :
    countDo (doRequest env client net method path payload dst).trace ≤ 1
    ∧ (env.NewRequestErr method (client.BaseURL ++ "/" ++ path) = none →
        ∀ data, (∀ p, payload = some p → env.Marshal p = .ok data) →
          countDo (doRequest env client net method path payload dst).trace = 1
          ∧ (doRequest env client net method path payload dst).net
              = (env.Do client.HTTPClient net
                  (requestAtDo env.ParseURL client method path (payload.map fun _ => data))).1
          ∧ countDo (doRequest env client
                (doRequest env client net method path payload dst).net
                method path payload dst2).trace = 1
          ∧ (doRequest env client (doRequest env client net method path payload dst).net
                method path payload dst2).net
              = (env.Do client.HTTPClient
                  (doRequest env client net method path payload dst).net
                  (requestAtDo env.ParseURL client method path (payload.map fun _ => data))).1)
    ∧ (((∃ e, env.NewRequestErr method (client.BaseURL ++ "/" ++ path) = some e)
          ∨ ∃ p e, payload = some p ∧ env.Marshal p = .error e) →
        countDo (doRequest env client net method path payload dst).trace = 0
        ∧ (doRequest env client net method path payload dst).net = net) := by
  have hone : ∀ (n : N) (d : D),
      env.NewRequestErr method (client.BaseURL ++ "/" ++ path) = none →
      ∀ data, (∀ p, payload = some p → env.Marshal p = .ok data) →
        countDo (doRequest env client n method path payload d).trace = 1
        ∧ (doRequest env client n method path payload d).net
            = (env.Do client.HTTPClient n
                (requestAtDo env.ParseURL client method path (payload.map fun _ => data))).1 := by
    intro n d hreq data hpay
    rw [doRequest_eq_exchange env client n method path payload data d hreq hpay,
      countDo_exchange, countDo_append, countDo_map_marshal, exchange_net]
    exact ⟨rfl, rfl⟩
  have hzero : ((∃ e, env.NewRequestErr method (client.BaseURL ++ "/" ++ path) = some e)
        ∨ ∃ p e, payload = some p ∧ env.Marshal p = .error e) →
      countDo (doRequest env client net method path payload dst).trace = 0
      ∧ (doRequest env client net method path payload dst).net = net := by
    rintro (⟨e, hreq⟩ | ⟨p, e, rfl, hm⟩)
    · rw [doRequest_newRequest_error env client net method path payload dst e hreq]
      exact ⟨rfl, rfl⟩
    · cases hreq : env.NewRequestErr method (client.BaseURL ++ "/" ++ path) with
      | some e2 =>
        rw [doRequest_newRequest_error env client net method path (some p) dst e2 hreq]
        exact ⟨rfl, rfl⟩
      | none =>
        rw [doRequest_marshal_error env client net method path p dst e hreq hm]
        exact ⟨rfl, rfl⟩
  refine ⟨?_, fun hreq data hpay => ?_, hzero⟩
  · rcases doRequest_cases env client method path payload with
      ⟨e, hreq⟩ | ⟨hreq, p, e, hp, hm⟩ | ⟨hreq, data, hpay⟩
    · rw [(hzero (Or.inl ⟨e, hreq⟩)).1]
      exact Nat.zero_le 1
    · rw [(hzero (Or.inr ⟨p, e, hp, hm⟩)).1]
      exact Nat.zero_le 1
    · rw [(hone net dst hreq data hpay).1]
  · exact ⟨(hone net dst hreq data hpay).1, (hone net dst hreq data hpay).2,
      (hone _ dst2 hreq data hpay).1, (hone _ dst2 hreq data hpay).2⟩

/-- Witness of amended C9: two successive identical mock runs each reach the
transport, whose log then holds the same request twice; a run with a channel
payload reaches it not at all. -/
theorem doRequest_transport_calls_witness :
    (countDo (doRequest (mockEnv (reply 200 "\x7b\"Sent\":42\x7d"))
        (NewClient "srv-token" "acct-token") [] "GET" "deliverystats" none
        { Sent := 0 }).trace = 1
      ∧ (doRequest (mockEnv (reply 200 "\x7b\"Sent\":42\x7d"))
          (NewClient "srv-token" "acct-token") [] "GET" "deliverystats" none
          { Sent := 0 }).net
        = [requestAtDo mockParseURL (NewClient "srv-token" "acct-token") "GET" "deliverystats" none]
      ∧ countDo (doRequest (mockEnv (reply 200 "\x7b\"Sent\":42\x7d"))
          (NewClient "srv-token" "acct-token")
          (doRequest (mockEnv (reply 200 "\x7b\"Sent\":42\x7d"))
            (NewClient "srv-token" "acct-token") [] "GET" "deliverystats" none
            { Sent := 0 }).net
          "GET" "deliverystats" none { Sent := 0 }).trace = 1
      ∧ (doRequest (mockEnv (reply 200 "\x7b\"Sent\":42\x7d"))
          (NewClient "srv-token" "acct-token")
          (doRequest (mockEnv (reply 200 "\x7b\"Sent\":42\x7d"))
            (NewClient "srv-token" "acct-token") [] "GET" "deliverystats" none
            { Sent := 0 }).net
          "GET" "deliverystats" none { Sent := 0 }).net
        = [requestAtDo mockParseURL (NewClient "srv-token" "acct-token") "GET" "deliverystats" none,
           requestAtDo mockParseURL (NewClient "srv-token" "acct-token") "GET" "deliverystats" none])
    ∧ (countDo (doRequest (mockEnv (reply 200 "\x7b\"Sent\":42\x7d"))
        (NewClient "srv-token" "acct-token") [] "POST" "email" (some .chan)
        { Sent := 0 }).trace = 0
      ∧ (doRequest (mockEnv (reply 200 "\x7b\"Sent\":42\x7d"))
        (NewClient "srv-token" "acct-token") [] "POST" "email" (some .chan)
        { Sent := 0 }).net = []) :=
  ⟨(doRequest_transport_calls (mockEnv (reply 200 "\x7b\"Sent\":42\x7d"))
      (NewClient "srv-token" "acct-token") [] "GET" "deliverystats" none
      { Sent := 0 } { Sent := 0 }).2.1 (by decide) "" (by intro p hp; cases hp),
   (doRequest_transport_calls (mockEnv (reply 200 "\x7b\"Sent\":42\x7d"))
      (NewClient "srv-token" "acct-token") [] "POST" "email" (some .chan)
      { Sent := 0 } { Sent := 0 }).2.2
      (Or.inr ⟨.chan, "json: unsupported type: chan int", rfl, rfl⟩)⟩

end Claims

end Postmark
